import Mathlib

/-!
Verification of the beeai-framework protocol-client slice.

This file gives a shallow embedding of three components of the repository:

* the `RemoteAgent` run loop (`RemoteAgent._run`, `checkAgentExists`):
  the event stream is modelled as a list of frames, where each frame is
  `none` when `JSON.parse(event.data)` throws and `some e` when it yields
  the protocol-shaped object `e`; the emitter is modelled as the ordered
  list of notifications the loop emits; the memory collaborator (not part
  of the provided sources) is modelled from the spec as an append-only
  list of messages, `add`/`addMany` appending in order;
* the message-masking helpers of `examples/internals/fetcher.ts`
  (`encodeCustomMessage`, `decodeCustomMessage`, `unmaskCustomMessage`):
  JavaScript strings are modelled as `List Char` so that `split("#")` and
  `join("#")` can be given by structural recursion;
* the Qdrant database tool (`QdrantDatabaseTool.validateInput`,
  `QdrantDatabaseTool.insert`): the `uuidv4()` generator is modelled as an
  abstract supply `uuidGen : Nat → String` indexed by the point position.
-/

/-- One text part of an ACP output, carrying its `content` string. -/
structure ACPTextPart where
  content : String
  deriving DecidableEq

/-- One output of a completed ACP run: an ordered list of parts. -/
structure ACPOutput where
  parts : List ACPTextPart
  deriving DecidableEq

/-- The `run.error` object of a failed ACP run; `message` may be absent
(JavaScript `undefined`), and may also be the empty string. -/
structure ACPErrorInfo where
  message : Option String := none
  deriving DecidableEq

/-- The `run` object of an ACP event: optional `error` and optional
`output` array. Absence of `output` is represented, because the completed
branch of `_run` reads `eventData.run.output` without optional chaining
and throws a TypeError when it is missing. -/
structure ACPRunInfo where
  error : Option ACPErrorInfo := none
  output : Option (List ACPOutput) := none
  deriving DecidableEq

/-- A successfully parsed ACP event object: its `type` field and its
`run` payload, each `none` when the field is absent. -/
structure ACPEvent where
  type : Option String := none
  run : Option ACPRunInfo := none
  deriving DecidableEq

/-- A domain chat message: role plus text, mirroring the `Message` model
(role + content) described by the spec; only the text content is relevant
to the remote-agent claims. -/
structure ChatMessage where
  role : String
  text : String
  deriving DecidableEq

/-- Builds a user-role message, mirroring `new UserMessage(text)`. -/
def UserMessage (text : String) : ChatMessage :=
  { role := "user", text := text }

/-- Builds an assistant-role message, mirroring `new AssistantMessage(text)`. -/
def AssistantMessage (text : String) : ChatMessage :=
  { role := "assistant", text := text }

/-- One element of the run input: a plain string or a domain message,
mirroring `RemoteAgentRunInput` (`Message | string | ...`). -/
inductive RunInputItem where
  | str (s : String)
  | msg (m : ChatMessage)
  deriving DecidableEq

/-- Embedding of `RemoteAgent.convertToMessage`: strings are wrapped as
user messages, messages pass through unchanged. -/
def convertToMessage : RunInputItem → ChatMessage
  | RunInputItem.str s => UserMessage s
  | RunInputItem.msg m => m

/-- A notification delivered through the emitter during `_run`: an
`update` event (key is the parsed `type`, which may be absent) or an
`error` event. -/
inductive RunNotice where
  | update (key : Option String) (value : ACPEvent)
  | error (message : String)
  deriving DecidableEq

/-- Embedding of the `for await (const event of generator)` loop of
`RemoteAgent._run`. The first argument is the current value of the
`eventData` accumulator; each frame is `some e` when `JSON.parse` succeeds
and `none` when it throws. Returns the final accumulator together with the
ordered list of emitted notifications. On success the loop stores the
parsed event and emits `update` with key `eventData.type` and value
`{ ...eventData, type: undefined }`; on parse failure it emits `error`
with message "Error parsing JSON" and leaves the accumulator unchanged. -/
def consumeLoop : Option ACPEvent → List (Option ACPEvent) → Option ACPEvent × List RunNotice
  | state, [] => (state, [])
  | state, frame :: rest =>
    match frame with
    | some e =>
      let r := consumeLoop (some e) rest
      (r.1, RunNotice.update e.type { e with type := none } :: r.2)
    | none =>
      let r := consumeLoop state rest
      (r.1, RunNotice.error "Error parsing JSON" :: r.2)

/-- Runs the event loop from the initial `eventData = null` state. -/
def consumeEvents (frames : List (Option ACPEvent)) : Option ACPEvent × List RunNotice :=
  consumeLoop none frames

/-- The value of the `eventData` accumulator after the stream is drained:
the last successfully parsed event, if any. -/
def lastParsedEvent (frames : List (Option ACPEvent)) : Option ACPEvent :=
  (consumeEvents frames).1

/-- JavaScript `v || d` on an optional string: the default is taken when
the value is absent or the empty string (both falsy). -/
def jsStrOr (v : Option String) (d : String) : String :=
  match v with
  | none => d
  | some s => if s = "" then d else s

/-- Embedding of the nested `reduce` of `RemoteAgent._run` on
`eventData.run.output`: concatenates every output's parts' content. -/
def concatOutputs (outputs : List ACPOutput) : String :=
  outputs.foldl
    (fun acc output => acc ++ output.parts.foldl (fun acc2 part => acc2 ++ part.content) "")
    ""

/-- Plain concatenation of a list of strings, in order. -/
def strJoin : List String → String
  | [] => ""
  | s :: rest => s ++ strJoin rest

/-- Outcome of a `run` call: the promise resolves with a result message
plus the raw terminal event, rejects with an `AgentError` message, or
crashes with the uncaught TypeError thrown at `eventData.run.output`
when a completed event carries no run/output payload. -/
inductive RunOutcome where
  | resolved (result : ChatMessage) (event : ACPEvent)
  | rejected (message : String)
  | crashed
  deriving DecidableEq

/-- Embedding of `RemoteAgent._run`, parametrised by the parsed frames the
transport yields. Returns the call outcome, the ordered list of emitted
notifications, and the final memory contents (the memory collaborator is
modelled from the spec as an append-only ordered list; `addMany` then
`add` append the input messages then the assistant message). On a
completed event whose `run`/`run.output` is absent the call crashes — the
uncaught TypeError of `eventData.run.output.reduce` — before any memory
append. -/
def runRemoteAgent (input : List RunInputItem) (frames : List (Option ACPEvent))
    (memory : List ChatMessage) : RunOutcome × List RunNotice × List ChatMessage :=
  let notifs := (consumeEvents frames).2
  match (consumeEvents frames).1 with
  | none => (RunOutcome.rejected "No event received from agent.", notifs, memory)
  | some eventData =>
    if eventData.type = some "run.failed" then
      let message := jsStrOr ((eventData.run.bind ACPRunInfo.error).bind ACPErrorInfo.message)
        "Something went wrong with the agent communication."
      (RunOutcome.rejected message, notifs ++ [RunNotice.error message], memory)
    else if eventData.type = some "run.completed" then
      match eventData.run.bind ACPRunInfo.output with
      | none => (RunOutcome.crashed, notifs, memory)
      | some outputs =>
        let text := concatOutputs outputs
        let assistantMessage := AssistantMessage text
        let inputMessages := input.map convertToMessage
        (RunOutcome.resolved assistantMessage eventData, notifs,
          memory ++ inputMessages ++ [assistantMessage])
    else
      (RunOutcome.resolved (AssistantMessage "No response from agent.") eventData, notifs, memory)

/-- One entry of the `/agents` listing, carrying its `name`. -/
structure AgentEntry where
  name : String
  deriving DecidableEq

/-- An `AgentError` as thrown by `checkAgentExists`: message plus the
`isFatal` option. -/
structure AgentErrorInfo where
  message : String
  isFatal : Bool
  deriving DecidableEq

/-- Embedding of `RemoteAgent.checkAgentExists`, parametrised by the
outcome of the single-shot `client.fetch("agents")` call (`Except.error`
carries the rejection's `error.message`). On success it returns
`!!response.agents.find(agent => agent.name === agentName)`; on rejection
it throws a wrapped `AgentError` with `isFatal: true`. -/
def checkAgentExists (agentName : String) (fetchResult : Except String (List AgentEntry)) :
    Except AgentErrorInfo Bool :=
  match fetchResult with
  | Except.ok agents =>
    Except.ok (agents.find? (fun agent => agent.name == agentName)).isSome
  | Except.error err =>
    Except.error
      { message := "Error while checking agent existence: " ++ err, isFatal := true }

/-- JavaScript strings for the masking helpers, modelled as character
lists so that `split`/`join` on the sentinel character have structural
definitions. -/
abbrev JStr := List Char

/-- Embedding of JavaScript `value.split("#")`: splits at every hash,
keeping empty segments (including a leading or trailing one), exactly as
`String.prototype.split` with a one-character separator does. -/
def splitHash : JStr → List JStr
  | [] => [[]]
  | c :: cs =>
    if c = '#' then [] :: splitHash cs
    else
      match splitHash cs with
      | [] => [[c]]
      | p :: ps => (c :: p) :: ps

/-- Embedding of JavaScript `segments.join("#")`. -/
def joinHash : List JStr → JStr
  | [] => []
  | [s] => s
  | s :: rest => s ++ '#' :: joinHash rest

/-- A wire content part as the masking helpers see it: a `type` tag plus
optional `text` and `content` string fields. -/
structure WirePart where
  type : JStr
  text : Option JStr := none
  content : Option JStr := none
  deriving DecidableEq

/-- JavaScript `a || b` on optional strings: `b` is taken when `a` is
absent or empty. -/
def jsOrOptStr (a b : Option JStr) : Option JStr :=
  match a with
  | none => b
  | some s => if s.isEmpty then b else some s

/-- The value `val.type === "text" ? val.text || val.content : null`
computed for one part while flattening an array-valued field. -/
def partTextValue (p : WirePart) : Option JStr :=
  if p.type = "text".data then jsOrOptStr p.text p.content else none

/-- Flattening of an array-of-parts field value into a single string:
`value.map(val => val.type === "text" ? val.text || val.content : null)
.filter(isTruthy).join("")` — absent and empty results are dropped, the
rest concatenated in order. -/
def flattenParts (ps : List WirePart) : JStr :=
  ((((ps.map partTextValue).filterMap id).filter fun s => !s.isEmpty)).flatten

/-- A custom (extended-role) domain message: role plus a list of text
parts, mirroring `CustomMessage` as used by `encodeCustomMessage`. -/
structure CustomMessage where
  role : JStr
  content : List WirePart
  deriving DecidableEq

/-- A text-bearing field of a wire message record: absent, a plain
string, or an array of parts. -/
inductive FieldValue where
  | absent
  | str (s : JStr)
  | arr (ps : List WirePart)
  deriving DecidableEq

/-- A wire message record as `unmaskCustomMessage` sees it: a `role`
field (absent when `undefined`) and the two text-bearing keys `content`
and `text` that the helper scans. -/
structure WireMessage where
  role : Option JStr := none
  content : FieldValue := FieldValue.absent
  text : FieldValue := FieldValue.absent
  deriving DecidableEq

/-- Embedding of `encodeCustomMessage`: wraps the custom message as a
user-role message whose parts are the sentinel text part
`#custom_role#<role>#` followed by the original content parts. The wire
user role `"user"` (`Role.USER`) is taken from the spec's wire message
model, the sources of `backend/message.js` not being part of the slice. -/
def encodeCustomMessage (msg : CustomMessage) : WireMessage :=
  { role := some "user".data,
    content := FieldValue.arr
      ({ type := "text".data,
         text := some ("#custom_role#".data ++ msg.role ++ ['#']) } :: msg.content) }

/-- The result object of a successful `decodeCustomMessage`: the role
segment (absent when the split had no third element) and the re-joined
content. -/
structure DecodedMessage where
  role : Option JStr
  content : JStr
  deriving DecidableEq

/-- Embedding of `decodeCustomMessage`: destructures
`const [_, id, role, ...content] = value.split("#")`, returns `undefined`
(`none`) unless `id` is the literal `custom_role`, and otherwise rebuilds
`{ role, content: content.join("#") }`. -/
def decodeCustomMessage (value : JStr) : Option DecodedMessage :=
  match splitHash value with
  | [] => none
  | [_] => none
  | _ :: id :: rest =>
    if id = "custom_role".data then
      match rest with
      | [] => some { role := none, content := [] }
      | role :: content => some { role := some role, content := joinHash content }
    else none

/-- The string a key's value contributes after the `if (!value) continue`
falsy check and the array flattening: `none` when the key is skipped
(absent value or empty string), otherwise the string itself or the
flattened array. -/
def keyValue : FieldValue → Option JStr
  | FieldValue.absent => none
  | FieldValue.str s => if s.isEmpty then none else some s
  | FieldValue.arr ps => some (flattenParts ps)

/-- Embedding of `unmaskCustomMessage`: a no-op on non-user-role
messages; otherwise scans the keys `content` then `text` in order, and on
the first key whose (flattened) value decodes, rewrites the message's
role and that key to the decoded values and stops. -/
def unmaskCustomMessage (msg : WireMessage) : WireMessage :=
  if msg.role ≠ some "user".data then msg
  else
    match (keyValue msg.content).bind decodeCustomMessage with
    | some d => { msg with role := d.role, content := FieldValue.str d.content }
    | none =>
      match (keyValue msg.text).bind decodeCustomMessage with
      | some d => { msg with role := d.role, text := FieldValue.str d.content }
      | none => msg

/-- The actions of `QdrantDatabaseTool`. -/
inductive QdrantAction where
  | ListCollections
  | GetCollectionInfo
  | Search
  | Insert
  | Delete
  deriving DecidableEq

/-- A Qdrant point id: the schema admits strings or numbers. -/
inductive QdrantId where
  | str (s : String)
  | num (n : Int)
  deriving DecidableEq

/-- A payload record attached to an inserted point, modelled as a list of
key/value pairs; the empty list stands for the empty object `{}`. -/
abbrev QdrantPayload := List (String × String)

/-- The validated input of `QdrantDatabaseTool`, with every optional
schema field modelled as an `Option`. Vector components are modelled as
integers; none of the verified properties depend on their values. -/
structure QdrantInput where
  action : QdrantAction
  collectionName : Option String := none
  vector : Option (List Int) := none
  vectors : Option (List (List Int)) := none
  topK : Option Int := none
  payload : Option (List QdrantPayload) := none
  ids : Option (List QdrantId) := none
  deriving DecidableEq

/-- JavaScript truthiness of an optional string field: truthy exactly
when present and non-empty. -/
def jsTruthyStr : Option String → Bool
  | none => false
  | some s => !(s == "")

/-- Outcome of `QdrantDatabaseTool.validateInput` (after the schema
check): a `ToolInputValidationError` with the given message, or
delegation of the input to `_run`. -/
inductive ValidateOutcome where
  | rejected (message : String)
  | delegated
  deriving DecidableEq

/-- Embedding of `QdrantDatabaseTool.validateInput`: rejects any action
other than `ListCollections` with a falsy collection name, a `Search`
action with a falsy collection name or missing `vector` array, and an
`Insert` action with a falsy collection name or missing `vectors` array
(arrays are truthy even when empty; `!input.vector` tests presence). -/
def validateQdrantInput (input : QdrantInput) : ValidateOutcome :=
  if input.action ≠ QdrantAction.ListCollections ∧ jsTruthyStr input.collectionName = false then
    ValidateOutcome.rejected
      "Collection name is required for GetCollectionInfo, Search, Insert, and Delete actions."
  else if input.action = QdrantAction.Search ∧
      (jsTruthyStr input.collectionName = false ∨ input.vector = none) then
    ValidateOutcome.rejected "Vector is required for Search action."
  else if input.action = QdrantAction.Insert ∧
      (jsTruthyStr input.collectionName = false ∨ input.vectors = none) then
    ValidateOutcome.rejected "Vectors are required for Insert action."
  else ValidateOutcome.delegated

/-- A point handed to `client.upsert`. -/
structure QdrantPoint where
  id : QdrantId
  vector : List Int
  payload : QdrantPayload
  deriving DecidableEq

/-- The point built for the vector at a given index by
`QdrantDatabaseTool.insert`: id `input?.ids?.[index] ?? uuidv4()` and
payload `input?.payload?.[index] || {}`. Payload entries are
schema-validated records, hence truthy whenever present, so `||` reduces
to presence; `uuidv4()` is modelled by the abstract supply `uuidGen`
applied at the point's index. -/
def qdrantPointAt (input : QdrantInput) (uuidGen : Nat → String) (index : Nat)
    (vector : List Int) : QdrantPoint :=
  { id := (input.ids.bind fun ids => ids[index]?).getD (QdrantId.str (uuidGen index)),
    vector := vector,
    payload := (input.payload.bind fun payload => payload[index]?).getD [] }

/-- Embedding of `input.vectors!.map((vector, index) => ...)` of
`QdrantDatabaseTool.insert`, carrying the running index explicitly. -/
def buildPoints (input : QdrantInput) (uuidGen : Nat → String) :
    Nat → List (List Int) → List QdrantPoint
  | _, [] => []
  | index, vector :: rest =>
    qdrantPointAt input uuidGen index vector :: buildPoints input uuidGen (index + 1) rest

/-- The request `QdrantDatabaseTool.insert` hands to `client.upsert`. -/
structure UpsertRequest where
  collectionName : String
  points : List QdrantPoint
  deriving DecidableEq

/-- Embedding of `QdrantDatabaseTool.insert`: builds one point per input
vector, in order, and upserts them into the named collection (the
`as string` cast on the collection name is modelled by `getD ""`; the
name is guaranteed present by `validateInput`). -/
def qdrantInsert (input : QdrantInput) (uuidGen : Nat → String) : UpsertRequest :=
  { collectionName := input.collectionName.getD "",
    points := buildPoints input uuidGen 0 (input.vectors.getD []) }

theorem foldl_append_strJoin {α : Type} (f : α → String) (l : List α) :
    ∀ acc : String, l.foldl (fun a x => a ++ f x) acc = acc ++ strJoin (l.map f) := by
  induction l with
  | nil => intro acc; simp [strJoin]
  | cons x xs ih =>
    intro acc
    simp only [List.foldl_cons, List.map_cons, strJoin, ih, String.append_assoc]

theorem concatOutputs_eq_strJoin (outputs : List ACPOutput) :
    concatOutputs outputs =
      strJoin (outputs.map fun o => strJoin (o.parts.map ACPTextPart.content)) := by
  have hinner : ∀ o : ACPOutput,
      o.parts.foldl (fun acc2 part => acc2 ++ part.content) "" =
        strJoin (o.parts.map ACPTextPart.content) := by
    intro o
    rw [foldl_append_strJoin ACPTextPart.content o.parts ""]
    exact String.empty_append _
  unfold concatOutputs
  rw [foldl_append_strJoin
    (fun output : ACPOutput => output.parts.foldl (fun acc2 part => acc2 ++ part.content) "")
    outputs ""]
  rw [String.empty_append]
  simp only [hinner]

theorem runRemoteAgent_completed (input : List RunInputItem) (frames : List (Option ACPEvent))
    (memory : List ChatMessage) (e : ACPEvent) (outputs : List ACPOutput)
    (h : lastParsedEvent frames = some e) (ht : e.type = some "run.completed")
    (ho : e.run.bind ACPRunInfo.output = some outputs) :
    runRemoteAgent input frames memory =
      (RunOutcome.resolved (AssistantMessage (concatOutputs outputs)) e,
        (consumeEvents frames).2,
        memory ++ input.map convertToMessage ++ [AssistantMessage (concatOutputs outputs)]) := by
  unfold runRemoteAgent
  rw [show (consumeEvents frames).1 = some e from h]
  simp [ht, ho]

/-- C1 counterexample: at the stream whose single frame parses to the
event with type "run.completed" and no run payload, the call crashes —
the uncaught TypeError of `eventData.run.output.reduce` — and appends
nothing, while the claim predicts a resolved result and the appends of
the wrapped input plus the assistant message. -/
theorem c1_counterexample :
    lastParsedEvent [some ({ type := some "run.completed" } : ACPEvent)] =
      some ({ type := some "run.completed" } : ACPEvent) ∧
    (runRemoteAgent [RunInputItem.str "Hi"]
        [some ({ type := some "run.completed" } : ACPEvent)] []).1 = RunOutcome.crashed ∧
    ((runRemoteAgent [RunInputItem.str "Hi"]
        [some ({ type := some "run.completed" } : ACPEvent)] []).1 ≠
      RunOutcome.resolved (AssistantMessage "")
        ({ type := some "run.completed" } : ACPEvent)) ∧
    (runRemoteAgent [RunInputItem.str "Hi"]
        [some ({ type := some "run.completed" } : ACPEvent)] []).2.2 = [] := by
  refine ⟨rfl, rfl, by decide, rfl⟩

/-- C1 amended: for every event stream whose last successfully parsed
event has type "run.completed" and carries a run.output array, `run`
resolves with a result whose text is the concatenation of every output's
parts' content, in output order then part order, and appends to memory
exactly the original input messages (strings wrapped as user messages)
followed by the new assistant message, in that order. -/
theorem c1_run_completed_appends (input : List RunInputItem) (frames : List (Option ACPEvent))
    (memory : List ChatMessage) (e : ACPEvent) (outputs : List ACPOutput)
    (h : lastParsedEvent frames = some e) (ht : e.type = some "run.completed")
    (ho : e.run.bind ACPRunInfo.output = some outputs) :
    (runRemoteAgent input frames memory).1 =
      RunOutcome.resolved
        (AssistantMessage (strJoin (outputs.map fun o => strJoin (o.parts.map ACPTextPart.content)))) e ∧
    (runRemoteAgent input frames memory).2.2 =
      memory ++ input.map convertToMessage ++
        [AssistantMessage (strJoin (outputs.map fun o => strJoin (o.parts.map ACPTextPart.content)))] ∧
    (∀ s, convertToMessage (RunInputItem.str s) = UserMessage s) := by
  rw [runRemoteAgent_completed input frames memory e outputs h ht ho]
  rw [concatOutputs_eq_strJoin]
  exact ⟨rfl, rfl, fun s => rfl⟩

/-- C1 witness: the single-frame "Hello" completed stream resolves with
text "Hello" and appends one user message then one assistant message. -/
theorem c1_run_completed_witness :
    (runRemoteAgent [RunInputItem.str "Hi"]
        [some { type := some "run.completed",
                run := some { output := some [{ parts := [{ content := "Hello" }] }] } }] []).2.2 =
      [UserMessage "Hi", AssistantMessage "Hello"] ∧
    (runRemoteAgent [RunInputItem.str "Hi"]
        [some { type := some "run.completed",
                run := some { output := some [{ parts := [{ content := "Hello" }] }] } }] []).1 =
      RunOutcome.resolved (AssistantMessage "Hello")
        { type := some "run.completed",
          run := some { output := some [{ parts := [{ content := "Hello" }] }] } } := by
  have h := c1_run_completed_appends [RunInputItem.str "Hi"]
    [some { type := some "run.completed",
            run := some { output := some [{ parts := [{ content := "Hello" }] }] } }] []
    { type := some "run.completed",
      run := some { output := some [{ parts := [{ content := "Hello" }] }] } }
    [{ parts := [{ content := "Hello" }] }] rfl rfl rfl
  refine ⟨?_, ?_⟩
  · rw [h.2.1]; rfl
  · rw [h.1]; rfl

theorem runRemoteAgent_no_event (input : List RunInputItem) (frames : List (Option ACPEvent))
    (memory : List ChatMessage) (h : lastParsedEvent frames = none) :
    runRemoteAgent input frames memory =
      (RunOutcome.rejected "No event received from agent.", (consumeEvents frames).2, memory) := by
  unfold runRemoteAgent
  rw [show (consumeEvents frames).1 = none from h]

theorem runRemoteAgent_failed (input : List RunInputItem) (frames : List (Option ACPEvent))
    (memory : List ChatMessage) (e : ACPEvent) (h : lastParsedEvent frames = some e)
    (ht : e.type = some "run.failed") :
    runRemoteAgent input frames memory =
      (RunOutcome.rejected (jsStrOr ((e.run.bind ACPRunInfo.error).bind ACPErrorInfo.message)
          "Something went wrong with the agent communication."),
        (consumeEvents frames).2 ++
          [RunNotice.error (jsStrOr ((e.run.bind ACPRunInfo.error).bind ACPErrorInfo.message)
            "Something went wrong with the agent communication.")],
        memory) := by
  unfold runRemoteAgent
  rw [show (consumeEvents frames).1 = some e from h]
  simp [ht]

/-- C2 counterexample: for the single-frame stream whose event is
`run.failed` with embedded error message "" (present but empty), the call
rejects with the default message, not with the embedded message "" as the
claim states. -/
theorem c2_counterexample :
    lastParsedEvent
        [some { type := some "run.failed", run := some { error := some { message := some "" } } }] =
      some { type := some "run.failed", run := some { error := some { message := some "" } } } ∧
    (({ type := some "run.failed",
        run := some { error := some { message := some "" } } } : ACPEvent).run.bind
        ACPRunInfo.error).bind ACPErrorInfo.message = some "" ∧
    (runRemoteAgent []
        [some { type := some "run.failed", run := some { error := some { message := some "" } } }]
        []).1 =
      RunOutcome.rejected "Something went wrong with the agent communication." ∧
    (RunOutcome.rejected "Something went wrong with the agent communication." ≠
      RunOutcome.rejected "") := by
  refine ⟨rfl, rfl, rfl, by decide⟩

/-- C2 amended: for every event stream that either yields no successfully
parsed event (run rejects with "No event received from agent.") or whose
last parsed event has type "run.failed" (run rejects with the embedded
error message, or the default message when the embedded message is absent
or empty), run fails with a rejection and memory is left completely
unchanged — zero appends occur. -/
theorem c2_amended_failure_leaves_memory (input : List RunInputItem)
    (frames : List (Option ACPEvent)) (memory : List ChatMessage) (e : ACPEvent) :
    (lastParsedEvent frames = none →
      (runRemoteAgent input frames memory).1 =
        RunOutcome.rejected "No event received from agent." ∧
      (runRemoteAgent input frames memory).2.2 = memory) ∧
    (lastParsedEvent frames = some e → e.type = some "run.failed" →
      (runRemoteAgent input frames memory).1 =
        RunOutcome.rejected (jsStrOr ((e.run.bind ACPRunInfo.error).bind ACPErrorInfo.message)
          "Something went wrong with the agent communication.") ∧
      (runRemoteAgent input frames memory).2.2 = memory) := by
  constructor
  · intro h
    rw [runRemoteAgent_no_event input frames memory h]
    exact ⟨rfl, rfl⟩
  · intro h ht
    rw [runRemoteAgent_failed input frames memory e h ht]
    exact ⟨rfl, rfl⟩

/-- C2 witness: the empty stream rejects with "No event received from
agent." and leaves the (one-message) memory unchanged; the "boom" failed
stream rejects with "boom" and leaves memory unchanged. -/
theorem c2_amended_witness :
    (runRemoteAgent [] [] [UserMessage "old"]).1 =
      RunOutcome.rejected "No event received from agent." ∧
    (runRemoteAgent [] [] [UserMessage "old"]).2.2 = [UserMessage "old"] ∧
    (runRemoteAgent []
        [some { type := some "run.failed", run := some { error := some { message := some "boom" } } }]
        [UserMessage "old"]).1 = RunOutcome.rejected "boom" ∧
    (runRemoteAgent []
        [some { type := some "run.failed", run := some { error := some { message := some "boom" } } }]
        [UserMessage "old"]).2.2 = [UserMessage "old"] := by
  have h1 := (c2_amended_failure_leaves_memory [] [] [UserMessage "old"]
    { type := some "run.failed", run := some { error := some { message := some "boom" } } }).1 rfl
  have h2 := (c2_amended_failure_leaves_memory []
    [some { type := some "run.failed", run := some { error := some { message := some "boom" } } }]
    [UserMessage "old"]
    { type := some "run.failed", run := some { error := some { message := some "boom" } } }).2 rfl rfl
  exact ⟨h1.1, h1.2, h2.1, h2.2⟩

/-- C3: a frame whose data is not valid JSON makes the loop emit one
"error" notification with message "Error parsing JSON", leaves the
accumulated last event unchanged, and continue consuming; in particular,
for a stream with one malformed frame followed by one valid
"run.completed" frame, exactly one "error" and one "update" notification
fire (in that order) and the call succeeds using the valid frame. -/
theorem c3_parse_error_recovery :
    (∀ (state : Option ACPEvent) (rest : List (Option ACPEvent)),
      consumeLoop state (none :: rest) =
        ((consumeLoop state rest).1,
          RunNotice.error "Error parsing JSON" :: (consumeLoop state rest).2)) ∧
    (∀ (input : List RunInputItem) (memory : List ChatMessage),
      runRemoteAgent input
          [none,
           some { type := some "run.completed",
                  run := some { output := some [{ parts := [{ content := "Hello" }] }] } }] memory =
        (RunOutcome.resolved (AssistantMessage "Hello")
            { type := some "run.completed",
              run := some { output := some [{ parts := [{ content := "Hello" }] }] } },
          [RunNotice.error "Error parsing JSON",
           RunNotice.update (some "run.completed")
             { type := none, run := some { output := some [{ parts := [{ content := "Hello" }] }] } }],
          memory ++ input.map convertToMessage ++ [AssistantMessage "Hello"])) := by
  constructor
  · intro state rest
    rfl
  · intro input memory
    rw [runRemoteAgent_completed input
      [none,
       some { type := some "run.completed",
              run := some { output := some [{ parts := [{ content := "Hello" }] }] } }] memory
      { type := some "run.completed",
        run := some { output := some [{ parts := [{ content := "Hello" }] }] } }
      [{ parts := [{ content := "Hello" }] }] rfl rfl rfl]
    rfl

/-- C5: for every event whose data parses as JSON with a type field, the
emitted "update" notification carries key equal to the parsed type and
value equal to the parsed object with the type field omitted. -/
theorem c5_update_notification_shape (state : Option ACPEvent)
    (rest : List (Option ACPEvent)) (e : ACPEvent) (t : String) (ht : e.type = some t) :
    consumeLoop state (some e :: rest) =
      ((consumeLoop (some e) rest).1,
        RunNotice.update (some t) { e with type := none } :: (consumeLoop (some e) rest).2) := by
  rw [← ht]
  rfl

/-- C5 witness: a concrete "run.created" event produces the update
notification keyed by its type, with the type field removed from the
carried value. -/
theorem c5_update_witness :
    consumeLoop none [some ({ type := some "run.created" } : ACPEvent)] =
      (some ({ type := some "run.created" } : ACPEvent),
        [RunNotice.update (some "run.created") ({ type := none } : ACPEvent)]) := by
  exact c5_update_notification_shape none [] { type := some "run.created" } "run.created" rfl

/-- C6: for every event stream whose last parsed event has a type that is
neither "run.completed" nor "run.failed", run resolves successfully with
the default placeholder result (assistant message "No response from
agent.") together with that raw event, rather than failing. -/
theorem c6_unknown_terminal_placeholder (input : List RunInputItem)
    (frames : List (Option ACPEvent)) (memory : List ChatMessage) (e : ACPEvent) (t : String)
    (h : lastParsedEvent frames = some e) (ht : e.type = some t)
    (hc : t ≠ "run.completed") (hf : t ≠ "run.failed") :
    (runRemoteAgent input frames memory).1 =
      RunOutcome.resolved (AssistantMessage "No response from agent.") e := by
  unfold runRemoteAgent
  rw [show (consumeEvents frames).1 = some e from h]
  simp [ht, hc, hf]

/-- C6 witness: a single "run.created" frame resolves with the
placeholder assistant message and that raw event. -/
theorem c6_placeholder_witness :
    (runRemoteAgent [] [some ({ type := some "run.created" } : ACPEvent)] []).1 =
      RunOutcome.resolved (AssistantMessage "No response from agent.")
        ({ type := some "run.created" } : ACPEvent) := by
  exact c6_unknown_terminal_placeholder [] [some { type := some "run.created" }] []
    { type := some "run.created" } "run.created" rfl rfl (by decide) (by decide)

/-- C7: checkAgentExists returns true iff the fetched agents list
contains an entry whose name equals the configured agent name, false
otherwise (in particular on an empty or non-matching list), and when the
underlying fetch rejects it throws a wrapped error marked fatal
(`isFatal := true`). -/
theorem c7_check_agent_exists_iff (agentName : String) (agents : List AgentEntry)
    (err : String) :
    (checkAgentExists agentName (Except.ok agents) = Except.ok true ↔
      ∃ agent ∈ agents, agent.name = agentName) ∧
    (checkAgentExists agentName (Except.ok agents) = Except.ok false ↔
      ∀ agent ∈ agents, agent.name ≠ agentName) ∧
    checkAgentExists agentName (Except.error err) =
      Except.error
        { message := "Error while checking agent existence: " ++ err, isFatal := true } := by
  refine ⟨?_, ?_, rfl⟩
  · constructor
    · intro h
      have h' : (agents.find? fun agent => agent.name == agentName).isSome = true :=
        Except.ok.inj h
      simpa using List.find?_isSome.mp h'
    · intro h
      obtain ⟨agent, hmem, hname⟩ := h
      have hsome : (agents.find? fun agent => agent.name == agentName).isSome = true :=
        List.find?_isSome.mpr ⟨agent, hmem, by simp [hname]⟩
      exact congrArg Except.ok hsome
  · constructor
    · intro h hagent hmem heq
      have h' : (agents.find? fun agent => agent.name == agentName).isSome = false :=
        Except.ok.inj h
      have hsome : (agents.find? fun agent => agent.name == agentName).isSome = true :=
        List.find?_isSome.mpr ⟨hagent, hmem, by simp [heq]⟩
      rw [hsome] at h'
      cases h'
    · intro h
      have hnone : (agents.find? fun agent => agent.name == agentName).isSome = false := by
        cases hs : (agents.find? fun agent => agent.name == agentName).isSome with
        | false => rfl
        | true =>
          obtain ⟨agent, hmem, heq⟩ := List.find?_isSome.mp hs
          exact absurd (by simpa using heq) (h agent hmem)
      exact congrArg Except.ok hnone

theorem splitHash_ne_nil : ∀ l : JStr, splitHash l ≠ [] := by
  intro l
  induction l with
  | nil => simp [splitHash]
  | cons c cs ih =>
    unfold splitHash
    by_cases hc : c = '#'
    · simp [hc]
    · rw [if_neg hc]
      cases h : splitHash cs with
      | nil => simp
      | cons p ps => simp

theorem splitHash_append_hash : ∀ (l t : JStr), '#' ∉ l →
    splitHash (l ++ '#' :: t) = l :: splitHash t := by
  intro l
  induction l with
  | nil =>
    intro t _
    simp [splitHash]
  | cons c cs ih =>
    intro t h
    have hc : c ≠ '#' := fun e => h (e ▸ List.mem_cons_self c cs)
    have hcs : '#' ∉ cs := fun m => h (List.mem_cons_of_mem _ m)
    rw [List.cons_append, splitHash, if_neg hc, ih t hcs]

theorem joinHash_cons_cons (c : Char) (p : JStr) (ps : List JStr) :
    joinHash ((c :: p) :: ps) = c :: joinHash (p :: ps) := by
  cases ps with
  | nil => rfl
  | cons q qs => simp [joinHash]

theorem joinHash_splitHash : ∀ l : JStr, joinHash (splitHash l) = l := by
  intro l
  induction l with
  | nil => rfl
  | cons c cs ih =>
    obtain ⟨p, ps, h⟩ : ∃ p ps, splitHash cs = p :: ps := by
      cases h' : splitHash cs with
      | nil => exact absurd h' (splitHash_ne_nil cs)
      | cons p ps => exact ⟨p, ps, rfl⟩
    by_cases hc : c = '#'
    · subst hc
      unfold splitHash
      rw [if_pos rfl, h]
      rw [h] at ih
      simpa [joinHash] using ih
    · unfold splitHash
      rw [if_neg hc, h]
      rw [h] at ih
      show joinHash ((c :: p) :: ps) = c :: cs
      rw [joinHash_cons_cons, ih]

theorem flattenParts_cons_of_text (p : WirePart) (ps : List WirePart) (s : JStr)
    (htype : p.type = "text".data) (htext : p.text = some s) (hne : s ≠ []) :
    flattenParts (p :: ps) = s ++ flattenParts ps := by
  have hempty : s.isEmpty = false := by
    cases s with
    | nil => exact absurd rfl hne
    | cons a as => rfl
  have hval : partTextValue p = some s := by
    unfold partTextValue jsOrOptStr
    rw [if_pos htype, htext]
    simp [hempty]
  unfold flattenParts
  rw [List.map_cons, hval, List.filterMap_cons]
  simp [hempty]

/-- C4: for every domain message with a custom (non-wire) role that
contains no hash character, decoding the encoded message recovers the
original: the decode of the encoded message's (flattened) content equals
the original role together with the original content, the list-of-parts
content being compared via its flattened text. -/
theorem c4_encode_decode_roundtrip (m : CustomMessage) (_hu : m.role ≠ "user".data)
    (_ha : m.role ≠ "assistant".data) (hh : '#' ∉ m.role) :
    (keyValue (encodeCustomMessage m).content).bind decodeCustomMessage =
      some { role := some m.role, content := flattenParts m.content } := by
  have hsent : ("#custom_role#".data ++ m.role ++ ['#'] : JStr) ≠ [] := by simp
  have hflat : flattenParts
      ({ type := "text".data,
         text := some ("#custom_role#".data ++ m.role ++ ['#']) } :: m.content) =
      ("#custom_role#".data ++ m.role ++ ['#']) ++ flattenParts m.content :=
    flattenParts_cons_of_text _ _ _ rfl rfl hsent
  have hkey : keyValue (encodeCustomMessage m).content =
      some (("#custom_role#".data ++ m.role ++ ['#']) ++ flattenParts m.content) := by
    exact congrArg some hflat
  rw [hkey]
  show decodeCustomMessage (("#custom_role#".data ++ m.role ++ ['#']) ++ flattenParts m.content) =
    some { role := some m.role, content := flattenParts m.content }
  have hlit : ("#custom_role#".data : JStr) = '#' :: ("custom_role".data ++ ['#']) := rfl
  have hrearr : (("#custom_role#".data ++ m.role ++ ['#']) ++ flattenParts m.content : JStr) =
      '#' :: ("custom_role".data ++ '#' :: (m.role ++ '#' :: flattenParts m.content)) := by
    rw [hlit]
    simp [List.append_assoc]
  rw [hrearr]
  have hsplit : splitHash
      ('#' :: ("custom_role".data ++ '#' :: (m.role ++ '#' :: flattenParts m.content))) =
      [] :: "custom_role".data :: m.role :: splitHash (flattenParts m.content) := by
    rw [splitHash, if_pos rfl,
      splitHash_append_hash "custom_role".data _ (by decide),
      splitHash_append_hash m.role _ hh]
  unfold decodeCustomMessage
  rw [hsplit]
  simp [joinHash_splitHash]

/-- C4 witness: the custom role "system" with content part "You are
helpful" round-trips through encode then decode. -/
theorem c4_roundtrip_witness :
    (keyValue (encodeCustomMessage
        { role := "system".data,
          content := [{ type := "text".data, text := some "You are helpful".data }] }).content).bind
      decodeCustomMessage =
      some { role := some "system".data, content := "You are helpful".data } := by
  have h := c4_encode_decode_roundtrip
    { role := "system".data,
      content := [{ type := "text".data, text := some "You are helpful".data }] }
    (by decide) (by decide) (by decide)
  rw [h]
  rfl

/-- C8: unmask applied to a user-role wire message whose content carries
the sentinel "#custom_role#system#You are helpful" rewrites the message
to role "system" and content "You are helpful"; applied to any message
that is not a masked user-role message (non-user role, or no scanned key
decodes) it leaves the message unchanged. -/
theorem c8_unmask_behaviour :
    (unmaskCustomMessage
        { role := some "user".data,
          content := FieldValue.str "#custom_role#system#You are helpful".data } =
      { role := some "system".data, content := FieldValue.str "You are helpful".data }) ∧
    (∀ msg : WireMessage, msg.role ≠ some "user".data → unmaskCustomMessage msg = msg) ∧
    (∀ msg : WireMessage, (keyValue msg.content).bind decodeCustomMessage = none →
      (keyValue msg.text).bind decodeCustomMessage = none → unmaskCustomMessage msg = msg) := by
  refine ⟨by decide, ?_, ?_⟩
  · intro msg h
    unfold unmaskCustomMessage
    rw [if_pos h]
  · intro msg h1 h2
    unfold unmaskCustomMessage
    by_cases hr : msg.role ≠ some "user".data
    · rw [if_pos hr]
    · rw [if_neg hr, h1, h2]

/-- C8 witness: a non-user-role message is left unchanged, and a user
message with no decodable key is left unchanged. -/
theorem c8_unmask_witness :
    unmaskCustomMessage { role := some "assistant".data, content := FieldValue.str "hi".data } =
      { role := some "assistant".data, content := FieldValue.str "hi".data } ∧
    unmaskCustomMessage { role := some "user".data, content := FieldValue.str "hi".data } =
      { role := some "user".data, content := FieldValue.str "hi".data } := by
  constructor
  · exact c8_unmask_behaviour.2.1
      { role := some "assistant".data, content := FieldValue.str "hi".data } (by decide)
  · exact c8_unmask_behaviour.2.2
      { role := some "user".data, content := FieldValue.str "hi".data } (by decide) (by decide)

/-- C9: validation rejects (returning a validation error, before any
delegation to the database client) any action other than ListCollections
that lacks a (truthy) collection name, any Search action that lacks a
vector array, and any Insert action that lacks a vectors array; inputs
passing these checks are delegated. -/
theorem c9_validate_input_checks (input : QdrantInput) :
    (input.action ≠ QdrantAction.ListCollections →
      jsTruthyStr input.collectionName = false →
      validateQdrantInput input ≠ ValidateOutcome.delegated) ∧
    (input.action = QdrantAction.Search → input.vector = none →
      validateQdrantInput input ≠ ValidateOutcome.delegated) ∧
    (input.action = QdrantAction.Insert → input.vectors = none →
      validateQdrantInput input ≠ ValidateOutcome.delegated) ∧
    ((input.action ≠ QdrantAction.ListCollections →
        jsTruthyStr input.collectionName = true) →
      (input.action = QdrantAction.Search → input.vector ≠ none) →
      (input.action = QdrantAction.Insert → input.vectors ≠ none) →
      validateQdrantInput input = ValidateOutcome.delegated) := by
  refine ⟨?_, ?_, ?_, ?_⟩
  · intro hne hf
    unfold validateQdrantInput
    rw [if_pos ⟨hne, hf⟩]
    simp
  · intro hs hv
    unfold validateQdrantInput
    by_cases h1 : input.action ≠ QdrantAction.ListCollections ∧
        jsTruthyStr input.collectionName = false
    · rw [if_pos h1]
      simp
    · rw [if_neg h1, if_pos ⟨hs, Or.inr hv⟩]
      simp
  · intro hi hv
    unfold validateQdrantInput
    by_cases h1 : input.action ≠ QdrantAction.ListCollections ∧
        jsTruthyStr input.collectionName = false
    · rw [if_pos h1]
      simp
    · rw [if_neg h1]
      by_cases h2 : input.action = QdrantAction.Search ∧
          (jsTruthyStr input.collectionName = false ∨ input.vector = none)
      · rw [if_pos h2]
        simp
      · rw [if_neg h2, if_pos ⟨hi, Or.inr hv⟩]
        simp
  · intro hname hvec hvecs
    unfold validateQdrantInput
    have h1 : ¬(input.action ≠ QdrantAction.ListCollections ∧
        jsTruthyStr input.collectionName = false) := by
      rintro ⟨hne, hf⟩
      rw [hname hne] at hf
      cases hf
    have h2 : ¬(input.action = QdrantAction.Search ∧
        (jsTruthyStr input.collectionName = false ∨ input.vector = none)) := by
      rintro ⟨hs, hor⟩
      cases hor with
      | inl hf =>
        have : input.action ≠ QdrantAction.ListCollections := by
          rw [hs]
          decide
        rw [hname this] at hf
        cases hf
      | inr hv => exact hvec hs hv
    have h3 : ¬(input.action = QdrantAction.Insert ∧
        (jsTruthyStr input.collectionName = false ∨ input.vectors = none)) := by
      rintro ⟨hi, hor⟩
      cases hor with
      | inl hf =>
        have : input.action ≠ QdrantAction.ListCollections := by
          rw [hi]
          decide
        rw [hname this] at hf
        cases hf
      | inr hv => exact hvecs hi hv
    rw [if_neg h1, if_neg h2, if_neg h3]

/-- C9 witness: a Search input with a collection name but no vector is
rejected, and a complete Insert input is delegated. -/
theorem c9_validate_witness :
    validateQdrantInput { action := QdrantAction.Search, collectionName := some "docs" } ≠
      ValidateOutcome.delegated ∧
    validateQdrantInput
        { action := QdrantAction.Insert, collectionName := some "docs",
          vectors := some [[1, 2]] } = ValidateOutcome.delegated := by
  constructor
  · exact (c9_validate_input_checks
      { action := QdrantAction.Search, collectionName := some "docs" }).2.1 rfl rfl
  · exact (c9_validate_input_checks
      { action := QdrantAction.Insert, collectionName := some "docs",
        vectors := some [[1, 2]] }).2.2.2
      (fun _ => rfl) (fun h => by cases h) (fun _ => by decide)

theorem buildPoints_length (input : QdrantInput) (uuidGen : Nat → String) :
    ∀ (start : Nat) (vs : List (List Int)),
      (buildPoints input uuidGen start vs).length = vs.length := by
  intro start vs
  induction vs generalizing start with
  | nil => rfl
  | cons v rest ih =>
    unfold buildPoints
    rw [List.length_cons, List.length_cons, ih (start + 1)]

theorem buildPoints_getElem? (input : QdrantInput) (uuidGen : Nat → String) :
    ∀ (vs : List (List Int)) (start i : Nat),
      (buildPoints input uuidGen start vs)[i]? =
        (vs[i]?).map fun v => qdrantPointAt input uuidGen (start + i) v := by
  intro vs
  induction vs with
  | nil =>
    intro start i
    simp [buildPoints]
  | cons v rest ih =>
    intro start i
    cases i with
    | zero => simp [buildPoints]
    | succ n =>
      unfold buildPoints
      rw [List.getElem?_cons_succ, List.getElem?_cons_succ, ih (start + 1) n]
      rw [show start + 1 + n = start + (n + 1) by omega]

/-- C10: for every Insert input with n vectors, the tool upserts exactly
n points, in vector order; point i carries vector vectors[i], id equal to
ids[i] when the ids array has an i-th entry and a freshly generated UUID
otherwise, and payload equal to payload[i] when the payload array has an
i-th entry (entries are schema-validated records, hence truthy) and the
empty object otherwise. -/
theorem c10_insert_points_shape (input : QdrantInput) (uuidGen : Nat → String)
    (vectors : List (List Int)) (hv : input.vectors = some vectors) :
    (qdrantInsert input uuidGen).points.length = vectors.length ∧
    (∀ (i : Nat) (v : List Int), vectors[i]? = some v →
      (qdrantInsert input uuidGen).points[i]? =
        some ({ id := (input.ids.bind fun ids => ids[i]?).getD (QdrantId.str (uuidGen i)),
                vector := v,
                payload := (input.payload.bind fun payload => payload[i]?).getD [] } :
          QdrantPoint)) := by
  constructor
  · unfold qdrantInsert
    rw [hv]
    exact buildPoints_length input uuidGen 0 vectors
  · intro i v hvi
    unfold qdrantInsert
    rw [hv]
    show (buildPoints input uuidGen 0 vectors)[i]? = _
    rw [buildPoints_getElem? input uuidGen vectors 0 i, hvi]
    rw [show (0 : Nat) + i = i by omega]
    rfl

/-- C10 witness: inserting two vectors with one supplied id and no
payload produces two points in order — the first keeps id 32, the second
gets the generated UUID at index 1, and both carry the empty payload. -/
theorem c10_insert_witness :
    (qdrantInsert
        { action := QdrantAction.Insert, collectionName := some "c",
          vectors := some [[1, 2], [3, 4]], ids := some [QdrantId.num 32] }
        (fun n => String.append "uuid-" (toString n))).points =
      [{ id := QdrantId.num 32, vector := [1, 2], payload := [] },
       { id := QdrantId.str "uuid-1", vector := [3, 4], payload := [] }] := by
  have h := c10_insert_points_shape
    { action := QdrantAction.Insert, collectionName := some "c",
      vectors := some [[1, 2], [3, 4]], ids := some [QdrantId.num 32] }
    (fun n => String.append "uuid-" (toString n)) [[1, 2], [3, 4]] rfl
  have h0 := h.2 0 [1, 2] rfl
  have h1 := h.2 1 [3, 4] rfl
  have hlen := h.1
  apply List.ext_getElem?
  intro i
  match i with
  | 0 => simpa using h0
  | 1 => simpa using h1
  | n + 2 =>
    have : (qdrantInsert _ _).points.length = 2 := hlen
    rw [List.getElem?_eq_none, List.getElem?_eq_none]
    · simp
    · rw [this]
      omega

/-- C7 witness: a matching single-entry list yields true, a non-matching
one yields false, and a rejected fetch yields the wrapped fatal error. -/
theorem c7_check_agent_witness :
    checkAgentExists "chat" (Except.ok [{ name := "chat" }]) = Except.ok true ∧
    checkAgentExists "chat" (Except.ok [{ name := "other" }]) = Except.ok false ∧
    checkAgentExists "chat" (Except.error "boom") =
      Except.error
        { message := "Error while checking agent existence: boom", isFatal := true } := by
  refine ⟨?_, ?_, (c7_check_agent_exists_iff "chat" [] "boom").2.2⟩
  · exact (c7_check_agent_exists_iff "chat" [{ name := "chat" }] "x").1.mpr
      ⟨{ name := "chat" }, by simp, rfl⟩
  · exact (c7_check_agent_exists_iff "chat" [{ name := "other" }] "x").2.1.mpr (by decide)
